import Mathlib

/-!
Shallow embedding of `src/budget_tracker.py` (a single-user command-line
budget tracker backed by an SQLite database) and proofs about the claims of
the specification.

Modelling choices:
* Monetary amounts (Python `float`) are modelled as `Rat`; all amounts in
  the claims are exact decimals, so no floating-point behaviour is at stake.
* Dates are modelled as integer day numbers: `date.today()` becomes an
  integer parameter `today`, `datetime.now()` becomes `now`.  For the date
  arithmetic in `calculate_burn_rate`, `(datetime.now() - start_date).days`
  equals the day-number difference because `start_date` is parsed at
  midnight, so the integer model is exact at day granularity.
* The SQLite database is a record of the two tables, each a list of rows in
  insertion order.  `AUTOINCREMENT` ids are modelled as `max existing + 1`;
  `ORDER BY id DESC LIMIT 1` is the row of maximal id.
* Python exceptions (`ZeroDivisionError` from `total_spent / days_passed`,
  `TypeError` from `fetchone()[0]` on a missing row) are modelled by
  `Option`: `none` is a raised error.
-/

namespace BudgetTracker

/-- A value stored in an SQLite column: SQLite is dynamically typed, so a
column declared `REAL` can still hold `TEXT` (this matters because
`add_transaction`'s INSERT binds the category string to the `amount`
column — see `add_transaction`). -/
inductive SqlValue
  | real (r : Rat)
  | text (s : String)
deriving DecidableEq

/-- Longest run of decimal digits at the head of the character list:
returns the accumulated value, the count of digits consumed, and the
unconsumed rest. -/
def takeDigits : List Char → Nat → Nat → Nat × Nat × List Char
  | [], acc, n => (acc, n, [])
  | c :: cs, acc, n =>
    if c.isDigit then takeDigits cs (acc * 10 + (c.toNat - 48)) (n + 1)
    else (acc, n, c :: cs)

/-- Longest prefix of a character list that reads as a decimal number
`[+|-] digits [. digits]`: the value and the unconsumed rest, or `none`
when not a single digit is consumed.  This models how SQLite interprets
TEXT numerically (exponent suffixes, which SQLite also accepts, never
arise from this program's data and are not modelled). -/
def parseNumPrefix (cs : List Char) : Option (Rat × List Char) :=
  let p :=
    match cs with
    | '-' :: t => ((-1 : Rat), t)
    | '+' :: t => ((1 : Rat), t)
    | _ => ((1 : Rat), cs)
  let q := takeDigits p.2 0 0
  match q.2.2 with
  | '.' :: t =>
    let f := takeDigits t 0 0
    if q.2.1 + f.2.1 = 0 then none
    else some (p.1 * ((q.1 : Rat) + (f.1 : Rat) / (10 : Rat) ^ f.2.1), f.2.2)
  | _ =>
    if q.2.1 = 0 then none
    else some (p.1 * (q.1 : Rat), q.2.2)

/-- REAL column affinity applied to an incoming TEXT binding: SQLite
converts the text to a REAL exactly when the whole text is a well-formed
number, and otherwise stores the text unchanged. -/
def realAffinity (s : String) : SqlValue :=
  match parseNumPrefix s.toList with
  | some (v, []) => SqlValue.real v
  | _ => SqlValue.text s

/-- TEXT column affinity applied to an incoming REAL binding: SQLite
stores the number's decimal text.  The exact spelling (`500 ↦ "500.0"`
here, matching SQLite's rendering of the Python float `500.0`) is
irrelevant to every claim — what matters is that a number's text, not the
intended label, ends up in the column. -/
def ratToText (r : Rat) : String :=
  if r.den = 1 then toString r.num ++ ".0"
  else toString r.num ++ "/" ++ toString r.den

/-- The numeric value `SUM` gives a stored value: a REAL is itself and
TEXT is read by its longest numeric prefix, 0 when it has none (SQLite's
numeric coercion). -/
def sumValue : SqlValue → Rat
  | SqlValue.real r => r
  | SqlValue.text s =>
    match parseNumPrefix s.toList with
    | some (v, _) => v
    | none => 0

/-- A row of the `transactions` table: `(cycle_id, type, category, amount,
description, timestamp)`.  The autoincrement primary key is irrelevant to
every claim and is omitted.  `category` is TEXT-affine so it always holds
a string; `amount` is REAL-affine but can still hold TEXT, which the
column-swapping INSERT of `add_transaction` actually produces. -/
structure Transaction where
  cycle_id : Nat
  type : String
  category : String
  amount : SqlValue
  description : String
  timestamp : Int
deriving DecidableEq

/-- A row of the `cycles` table: `(id, start_date, end_date, initial_income)`. -/
structure Cycle where
  id : Nat
  start_date : Int
  end_date : Int
  initial_income : Rat
deriving DecidableEq

/-- The database state: the two tables created by `init_db`, rows in
insertion order. -/
structure DB where
  cycles : List Cycle
  transactions : List Transaction
deriving DecidableEq

/-- The freshly initialised database (`init_db` on a missing file). -/
def emptyDB : DB := ⟨[], []⟩

/-- Largest cycle id present in the table (0 when empty). -/
def max_cycle_id (l : List Cycle) : Nat :=
  l.foldr (fun c m => max c.id m) 0

/-- The id SQLite AUTOINCREMENT assigns to the next `cycles` row
(`cursor.lastrowid` after the insert): strictly larger than every id
already used. -/
def next_cycle_id (db : DB) : Nat := max_cycle_id db.cycles + 1

/-- One step of scanning for the row of maximal id
(`SELECT * FROM cycles ORDER BY id DESC LIMIT 1`). -/
def pick_newer (acc : Option Cycle) (c : Cycle) : Option Cycle :=
  match acc with
  | none => some c
  | some b => if b.id < c.id then some c else some b

/-- `get_current_cycle`: the cycle row with the largest id, `none` when the
table is empty (Python returns the row or `None`). -/
def get_current_cycle (db : DB) : Option Cycle :=
  db.cycles.foldl pick_newer none

/-- `start_new_cycle(income, rollover=0.0)`: inserts a cycle running from
`today` to `today + 30` with `initial_income = income + rollover`, then
inserts one synthetic income transaction of that amount.  Returns the new
cycle id together with the updated database. -/
def start_new_cycle (db : DB) (income rollover : Rat) (today now : Int) :
    Nat × DB :=
  let total_income := income + rollover
  let cycle_id := next_cycle_id db
  (cycle_id,
   { cycles := db.cycles ++ [⟨cycle_id, today, today + 30, total_income⟩],
     transactions := db.transactions ++
       [⟨cycle_id, "income", "Salary", SqlValue.real total_income,
         "Initial Cycle Funds", now⟩] })

/-- `add_transaction(cycle_id, t_type, amount, category, desc)`: inserts one
transactions row, with no validation.  The source's INSERT names the
columns `(cycle_id, type, category, amount, description, timestamp)` but
binds the tuple `(cycle_id, t_type, amount, category, desc, timestamp)`:
the `category` column receives the numeric `amount` (TEXT affinity turns
it into its decimal text) and the `amount` column receives the `category`
string (REAL affinity keeps it as text unless it is a well-formed
number). -/
def add_transaction (db : DB) (cycle_id : Nat) (t_type : String) (amount : Rat)
    (category desc : String) (now : Int) : DB :=
  { db with transactions := db.transactions ++
      [⟨cycle_id, t_type, ratToText amount, realAffinity category, desc, now⟩] }

/-- `SELECT ... FROM cycles WHERE id = ?` (ids are unique, so the first
match is the row). -/
def find_cycle (db : DB) (cycle_id : Nat) : Option Cycle :=
  db.cycles.find? (fun c => c.id = cycle_id)

/-- `SELECT SUM(amount) FROM transactions WHERE cycle_id = ? AND type = ?`,
with the Python `or 0` turning an empty SUM into 0, and SQLite's numeric
coercion (`sumValue`) applied to each stored value.  Magnitudes are exact
rationals; the order-dependent rounding of the engine's IEEE-double
accumulation is not modelled, so only claims whose truth does not hinge on
float rounding are settled against this definition. -/
def sum_amounts (trs : List Transaction) (cycle_id : Nat) (t : String) : Rat :=
  ((trs.filter (fun tr => tr.cycle_id = cycle_id && tr.type = t)).map
    (fun tr => sumValue tr.amount)).sum

/-- `days_passed = (datetime.now() - start_date).days + 1` — note: the
source applies no `max(1, ...)` despite its comment. -/
def days_passed (start_date now : Int) : Int := now - start_date + 1

/-- `calculate_burn_rate(cycle_id)`: returns `(balance, daily_rate, runway)`;
`none` models a raised Python exception (missing cycle row, or
`ZeroDivisionError` when `days_passed = 0`). -/
def calculate_burn_rate (db : DB) (cycle_id : Nat) (now : Int) :
    Option (Rat × Rat × Rat) :=
  match find_cycle db cycle_id with
  | none => none
  | some c =>
    let dp := days_passed c.start_date now
    if dp = 0 then none
    else
      let total_spent := sum_amounts db.transactions cycle_id "expense"
      let total_income := sum_amounts db.transactions cycle_id "income"
      let balance := total_income - total_spent
      let daily_rate := total_spent / (dp : Rat)
      let runway := if 0 < daily_rate then balance / daily_rate else 0
      some (balance, daily_rate, runway)

/-- How `main` (option 2) presents the runway: a finite number of days when
`rate > 0`, otherwise the text `Infinite (No expenses recorded)`. -/
inductive RunwayDisplay
  | finite (days : Rat)
  | infinite
deriving DecidableEq

/-- The display branch of `main`: `if rate > 0: print runway else print
Infinite`. -/
def display_runway (daily_rate runway : Rat) : RunwayDisplay :=
  if 0 < daily_rate then .finite runway else .infinite

/-- `SELECT category, SUM(amount) FROM transactions WHERE cycle_id = ? AND
type = 'expense' GROUP BY category`: one `(category, total)` pair per
distinct category among the cycle's expense rows. -/
def category_breakdown (db : DB) (cycle_id : Nat) : List (String × Rat) :=
  let rows := db.transactions.filter
    (fun tr => tr.cycle_id = cycle_id && tr.type = "expense")
  ((rows.map (fun tr => tr.category)).dedup).map
    (fun cat => (cat, ((rows.filter (fun tr => tr.category = cat)).map
      (fun tr => sumValue tr.amount)).sum))

/-- Outcome of `generate_visual_report`: either the early return with the
"No expenses found" warning, or a rendered chart of the grouped data. -/
inductive ReportOutcome
  | noData
  | chart (data : List (String × Rat))
deriving DecidableEq

/-- `generate_visual_report(cycle_id)`: early-returns on empty data,
otherwise renders the pie chart from the grouped rows. -/
def generate_visual_report (db : DB) (cycle_id : Nat) : ReportOutcome :=
  let data := category_breakdown db cycle_id
  if data.isEmpty then .noData else .chart data

/-- The expense-amount check of the interactive shell (option 1):
`amt = float(input(...)); if amt <= 0: raise ValueError` — an amount is
accepted exactly when it is strictly positive. -/
def expense_input_valid (amt : Rat) : Bool := decide (0 < amt)

/-- Modelled from the spec: `DaysElapsed(cycle, asOf) =
max(1, (asOf - cycle.start_date).days + 1)` (§4.2) — the clamped version
the spec describes, to compare with the source's `days_passed`. -/
def specDaysElapsed (start_date asOf : Int) : Int :=
  max 1 (asOf - start_date + 1)

/-! ### Concrete databases used to exercise the claims -/

/-- The spec §8 example run: a cycle started with income 2000 and rollover 0
on day 0, then expense 500 "Rent" and expense 100 "Food" entered through
`add_transaction`. -/
def two_expense_db : DB :=
  add_transaction
    (add_transaction (start_new_cycle emptyDB 2000 0 0 0).2
      1 "expense" 500 "Rent" "User Entry" 2)
    1 "expense" 100 "Food" "User Entry" 3

/-- A database whose only cycle starts on day 10 — used to query the burn
rate with `now` one day earlier. -/
def pre_start_db : DB :=
  ⟨[⟨1, 10, 40, 100⟩],
   [⟨1, "income", "Salary", SqlValue.real 100, "Initial Cycle Funds", 0⟩]⟩

/-- A cycle with its seed income and no expenses. -/
def income_only_db : DB :=
  ⟨[⟨1, 0, 30, 2000⟩],
   [⟨1, "income", "Salary", SqlValue.real 2000, "Initial Cycle Funds", 0⟩]⟩

/-- The spec §8 overspent example: income 500, expense 700 (the expense
row holds a numeric `amount`, as the program produces when the entered
category text is itself a well-formed number). -/
def overspent_db : DB :=
  ⟨[⟨1, 0, 30, 500⟩],
   [⟨1, "income", "Salary", SqlValue.real 500, "Initial Cycle Funds", 0⟩,
    ⟨1, "expense", "Misc", SqlValue.real 700, "User Entry", 0⟩]⟩

/-! ### Helper lemmas about ids and the current-cycle scan -/

theorem id_le_max_cycle_id (l : List Cycle) (c : Cycle) (hc : c ∈ l) :
    c.id ≤ max_cycle_id l := by
  induction l with
  | nil => exact absurd hc (List.not_mem_nil c)
  | cons a t ih =>
    simp only [max_cycle_id, List.foldr_cons]
    rcases List.mem_cons.mp hc with rfl | h
    · exact le_max_left _ _
    · exact le_trans (ih h) (le_max_right _ _)

theorem mem_cycles_id_lt_next (db : DB) (c : Cycle) (hc : c ∈ db.cycles) :
    c.id < next_cycle_id db :=
  Nat.lt_succ_of_le (id_le_max_cycle_id db.cycles c hc)

theorem foldl_pick_newer_mem (l : List Cycle) :
    ∀ (acc : Option Cycle) (b : Cycle),
      l.foldl pick_newer acc = some b → b ∈ l ∨ acc = some b := by
  induction l with
  | nil => exact fun acc b h => Or.inr h
  | cons a t ih =>
    intro acc b h
    rcases ih (pick_newer acc a) b h with hm | he
    · exact Or.inl (List.mem_cons_of_mem _ hm)
    · cases acc with
      | none =>
        simp only [pick_newer] at he
        exact Or.inl (by rw [← Option.some_inj.mp he]; exact List.mem_cons_self a t)
      | some x =>
        simp only [pick_newer] at he
        by_cases hx : x.id < a.id
        · rw [if_pos hx] at he
          exact Or.inl (by rw [← Option.some_inj.mp he]; exact List.mem_cons_self a t)
        · rw [if_neg hx] at he
          exact Or.inr (by rw [Option.some_inj.mp he])

theorem foldl_pick_newer_append_big (l : List Cycle) (newc : Cycle)
    (h : ∀ c ∈ l, c.id < newc.id) :
    (l ++ [newc]).foldl pick_newer none = some newc := by
  rw [List.foldl_append]
  cases hacc : l.foldl pick_newer none with
  | none => rfl
  | some b =>
    rcases foldl_pick_newer_mem l none b hacc with hm | he
    · simp only [List.foldl_cons, List.foldl_nil, pick_newer, if_pos (h b hm)]
    · exact absurd he (by simp)

/-! ### Claim theorems -/

/-- C9: for every prior store state and all income and rollover, immediately
after `start_new_cycle` the returned cycle id is the one `get_current_cycle`
reports (the most recently created cycle, with start `today`, end
`today + 30` and initial income `income + rollover`), and the `cycles`
table is the old table with that single row appended, so the fields of
every previously existing cycle are unchanged. -/
theorem new_cycle_is_current_frame (db : DB) (income rollover : Rat)
    (today now : Int) :
    get_current_cycle (start_new_cycle db income rollover today now).2 =
      some ⟨(start_new_cycle db income rollover today now).1, today, today + 30,
        income + rollover⟩ ∧
    (start_new_cycle db income rollover today now).2.cycles =
      db.cycles ++ [⟨(start_new_cycle db income rollover today now).1, today,
        today + 30, income + rollover⟩] ∧
    ∀ c ∈ db.cycles, c ∈ (start_new_cycle db income rollover today now).2.cycles := by
  refine ⟨?_, rfl, ?_⟩
  · exact foldl_pick_newer_append_big db.cycles _
      (fun c hc => mem_cycles_id_lt_next db c hc)
  · intro c hc
    exact List.mem_append_left _ hc

/-- C2: for all `income ≥ 0` and `rollover ≥ 0`, the cycle created by
`start_new_cycle` has `initial_income = income + rollover`, and its
transaction list (the rows carrying the fresh cycle id) is exactly one
synthetic income transaction of that amount.  The freshness hypothesis is
the database invariant that no transaction row references an id the
AUTOINCREMENT column has not assigned yet. -/
theorem start_new_cycle_seeds_initial_income (db : DB) (income rollover : Rat)
    (today now : Int) (hinc : 0 ≤ income) (hroll : 0 ≤ rollover)
    (hfresh : ∀ t ∈ db.transactions, t.cycle_id ≠ next_cycle_id db) :
    (find_cycle (start_new_cycle db income rollover today now).2
        (start_new_cycle db income rollover today now).1).map Cycle.initial_income =
      some (income + rollover) ∧
    (start_new_cycle db income rollover today now).2.transactions.filter
        (fun t => t.cycle_id = (start_new_cycle db income rollover today now).1) =
      [⟨(start_new_cycle db income rollover today now).1, "income", "Salary",
        SqlValue.real (income + rollover), "Initial Cycle Funds", now⟩] := by
  constructor
  · have hnone : db.cycles.find? (fun c => c.id = next_cycle_id db) = none := by
      rw [List.find?_eq_none]
      intro c hc
      simp only [decide_eq_true_eq]
      exact Nat.ne_of_lt (mem_cycles_id_lt_next db c hc)
    simp only [start_new_cycle, find_cycle, List.find?_append, hnone,
      Option.none_orElse]
    simp [List.find?]
  · have hold : db.transactions.filter
        (fun t => t.cycle_id = next_cycle_id db) = [] := by
      rw [List.filter_eq_nil_iff]
      intro t ht
      simp only [decide_eq_true_eq]
      exact hfresh t ht
    simp only [start_new_cycle, List.filter_append, hold, List.nil_append]
    simp [List.filter]

/-- C6: the cycle created by `start_new_cycle` satisfies
`end_date = start_date + 30` exactly; every row of the resulting `cycles`
table is either an untouched pre-existing row or the new row; and
`add_transaction` (the only other mutating operation) leaves the `cycles`
table untouched, so both dates are immutable after creation. -/
theorem cycle_dates_fixed_immutable (db : DB) (income rollover : Rat)
    (today now : Int) (cid : Nat) (ty cat d : String) (amt : Rat) (tnow : Int) :
    (Cycle.mk (next_cycle_id db) today (today + 30) (income + rollover)).end_date =
      (Cycle.mk (next_cycle_id db) today (today + 30)
        (income + rollover)).start_date + 30 ∧
    (∀ c ∈ (start_new_cycle db income rollover today now).2.cycles,
        c ∈ db.cycles ∨
        c = ⟨next_cycle_id db, today, today + 30, income + rollover⟩) ∧
    (∀ c ∈ db.cycles, c ∈ (start_new_cycle db income rollover today now).2.cycles) ∧
    (add_transaction db cid ty amt cat d tnow).cycles = db.cycles := by
  refine ⟨rfl, ?_, ?_, rfl⟩
  · intro c hc
    rcases List.mem_append.mp hc with h | h
    · exact Or.inl h
    · exact Or.inr (List.mem_singleton.mp h)
  · intro c hc
    exact List.mem_append_left _ hc

/-- C10: the claim's no-validation half is real — `add_transaction` appends
one row unconditionally for every amount, zero and negative included, and
only the shell's input loop (`expense_input_valid`) rejects non-positive
expense amounts — but the row does NOT carry "exactly those field values":
at the failing input `add_transaction(1, 'expense', 500, 'Rent', 'User
Entry')` the stored `amount` column holds the text `"Rent"` (never the
number 500) and the stored `category` column holds the decimal text of
500, because the INSERT's value tuple is misaligned with its column
list. -/
theorem add_transaction_swaps_columns :
    (∀ (db : DB) (cid : Nat) (ty : String) (amt : Rat) (cat d : String)
        (now : Int),
      (add_transaction db cid ty amt cat d now).transactions =
        db.transactions ++ [⟨cid, ty, ratToText amt, realAffinity cat, d, now⟩] ∧
      (add_transaction db cid ty amt cat d now).cycles = db.cycles ∧
      (expense_input_valid amt = true ↔ 0 < amt)) ∧
    (add_transaction emptyDB 1 "expense" 500 "Rent" "User Entry" 0).transactions =
      [⟨1, "expense", ratToText 500, SqlValue.text "Rent", "User Entry", 0⟩] ∧
    (∀ r : Rat, SqlValue.text "Rent" ≠ SqlValue.real r) ∧
    ratToText 500 ≠ "Rent" := by
  refine ⟨fun db cid ty amt cat d now => ⟨rfl, rfl, by simp [expense_input_valid]⟩,
    rfl, fun r h => SqlValue.noConfusion h, ?_⟩
  decide

/-- C8: on a cycle with no expense transactions, `category_breakdown` is the
empty mapping and `generate_visual_report` takes the early "nothing to
render" return — a warning message, never a raised error. -/
theorem category_breakdown_empty_ok (db : DB) (cid : Nat)
    (h : db.transactions.filter
      (fun tr => tr.cycle_id = cid && tr.type = "expense") = []) :
    category_breakdown db cid = [] ∧
    generate_visual_report db cid = ReportOutcome.noData := by
  have hb : category_breakdown db cid = [] := by
    simp [category_breakdown, h]
  exact ⟨hb, by simp [generate_visual_report, hb]⟩

/-- C1: whenever the cycle row exists, `now` is not before the start date,
and every stored amount sums as a non-negative number (the data-model
invariant, read through SQLite's numeric coercion), the burn-rate
computation succeeds (no division-by-zero fault), and the runway the user
sees is the `Infinite` sentinel exactly when the daily rate is 0 and
`balance / rate` otherwise. -/
theorem burn_rate_zero_runway_infinite (db : DB) (cid : Nat) (now : Int)
    (c : Cycle) (hc : find_cycle db cid = some c)
    (hstart : c.start_date ≤ now)
    (hnn : ∀ t ∈ db.transactions, 0 ≤ sumValue t.amount) :
    (calculate_burn_rate db cid now).isSome = true ∧
    ∀ bal rate run, calculate_burn_rate db cid now = some (bal, rate, run) →
      (rate = 0 → run = 0 ∧ display_runway rate run = RunwayDisplay.infinite) ∧
      (rate ≠ 0 → run = bal / rate ∧
        display_runway rate run = RunwayDisplay.finite (bal / rate)) := by
  have hdp : (0 : Int) < days_passed c.start_date now := by
    simp only [days_passed]; omega
  have hdpne : days_passed c.start_date now ≠ 0 := by omega
  have hspent : 0 ≤ sum_amounts db.transactions cid "expense" := by
    apply List.sum_nonneg
    intro x hx
    simp only [List.mem_map, List.mem_filter] at hx
    obtain ⟨t, ⟨ht, _⟩, rfl⟩ := hx
    exact hnn t ht
  have hratenn : 0 ≤ sum_amounts db.transactions cid "expense" /
      ((days_passed c.start_date now : Int) : Rat) := by
    apply div_nonneg hspent
    exact_mod_cast le_of_lt hdp
  constructor
  · simp only [calculate_burn_rate, hc, if_neg hdpne, Option.isSome_some]
  · intro bal rate run h
    simp only [calculate_burn_rate, hc, if_neg hdpne, Option.some.injEq,
      Prod.mk.injEq] at h
    obtain ⟨hb, hr, hw⟩ := h
    constructor
    · intro h0
      have hcond : ¬ (0 : Rat) < sum_amounts db.transactions cid "expense" /
          ((days_passed c.start_date now : Int) : Rat) := by
        rw [hr, h0]
        exact lt_irrefl 0
      refine ⟨by rw [← hw, if_neg hcond], ?_⟩
      simp only [display_runway, h0, lt_irrefl 0, if_false]
      simp
    · intro hne
      have hpos : (0 : Rat) < rate := lt_of_le_of_ne (hr ▸ hratenn) (Ne.symm hne)
      have hcond : (0 : Rat) < sum_amounts db.transactions cid "expense" /
          ((days_passed c.start_date now : Int) : Rat) := hr ▸ hpos
      have hrun : run = bal / rate := by
        rw [← hw, if_pos hcond, hb, hr]
      exact ⟨hrun, by simp only [display_runway, if_pos hpos, hrun]⟩

/-- C4: when total expense exceeds total income and the daily rate is
positive, the balance is negative, the runway equals `balance / rate`, is
negative, and is displayed as-is (a finite value, no clamping to zero). -/
theorem overspent_negative_runway (db : DB) (cid : Nat) (now : Int)
    (bal rate run : Rat)
    (h : calculate_burn_rate db cid now = some (bal, rate, run))
    (hover : sum_amounts db.transactions cid "income" <
      sum_amounts db.transactions cid "expense")
    (hrate : 0 < rate) :
    bal < 0 ∧ run = bal / rate ∧ run < 0 ∧
      display_runway rate run = RunwayDisplay.finite run := by
  rcases hfc : find_cycle db cid with _ | c
  · rw [calculate_burn_rate, hfc] at h
    cases h
  · simp only [calculate_burn_rate, hfc] at h
    by_cases hdp : days_passed c.start_date now = 0
    · rw [if_pos hdp] at h
      cases h
    · rw [if_neg hdp] at h
      simp only [Option.some.injEq, Prod.mk.injEq] at h
      obtain ⟨hb, hr, hw⟩ := h
      have hbneg : bal < 0 := by
        rw [← hb]
        exact sub_neg.mpr hover
      have hrun : run = bal / rate := by
        rw [← hw, if_pos (hr ▸ hrate), hb, hr]
      refine ⟨hbneg, hrun, ?_, ?_⟩
      · rw [hrun]
        exact div_neg_of_neg_of_pos hbneg hrate
      · simp only [display_runway, if_pos hrate]

/-- C5: the spec's worked example fails on the code.  Starting income 2000,
rollover 0, expenses 500 ("Rent") and 100 ("Food"), queried on day 9 (days
elapsed 10): `initial_income = 2000` holds, but because `add_transaction`
stores "Rent" and "Food" in the `amount` column, `SUM` coerces them to 0
and the program computes `(balance, rate, runway) = (2000, 0, 0)` —
displayed as balance 2000 with runway `Infinite` — instead of the claimed
`(1400, 60, 1400 / 60)`. -/
theorem forecast_example_masked_by_swap :
    (find_cycle two_expense_db 1).map Cycle.initial_income = some 2000 ∧
    days_passed 0 9 = 10 ∧
    calculate_burn_rate two_expense_db 1 9 = some (2000, 0, 0) ∧
    calculate_burn_rate two_expense_db 1 9 ≠ some (1400, 60, 1400 / 60) ∧
    display_runway 0 0 = RunwayDisplay.infinite := by
  have hRent : sumValue (realAffinity "Rent") = 0 := rfl
  have hFood : sumValue (realAffinity "Food") = 0 := rfl
  have hSeed : ∀ r : Rat, sumValue (SqlValue.real r) = r := fun r => rfl
  have heval : calculate_burn_rate two_expense_db 1 9 = some (2000, 0, 0) := by
    simp [calculate_burn_rate, find_cycle, two_expense_db, start_new_cycle,
      add_transaction, emptyDB, next_cycle_id, max_cycle_id, days_passed,
      sum_amounts, List.filter, hRent, hFood, hSeed]
  refine ⟨?_, rfl, heval, ?_, rfl⟩
  · simp [find_cycle, two_expense_db, start_new_cycle, add_transaction, emptyDB,
      next_cycle_id, max_cycle_id, List.find?]
  · rw [heval]
    simp only [ne_eq, Option.some.injEq, Prod.mk.injEq, not_and]
    intro h
    exact absurd h (by norm_num)

/-- C3: the source's `days_passed` is NOT clamped to 1 — queried one day
before the cycle's start date it evaluates to 0, where the spec's
`DaysElapsed` (`specDaysElapsed`) gives 1, and `calculate_burn_rate`
raises `ZeroDivisionError` (modelled as `none`) instead of computing a
rate, contradicting the source's own comment "minimum 1 to avoid division
by zero". -/
theorem days_passed_unclamped_zero_div :
    days_passed 10 9 = 0 ∧ specDaysElapsed 10 9 = 1 ∧
    calculate_burn_rate pre_start_db 1 9 = none := by
  refine ⟨rfl, rfl, rfl⟩

/-- Witness for C1 at `income_only_db`, `now = 5`: the computation succeeds
and the zero-rate branch displays the `Infinite` sentinel. -/
theorem burn_rate_zero_runway_infinite_witness :
    (calculate_burn_rate income_only_db 1 5).isSome = true ∧
    display_runway 0 0 = RunwayDisplay.infinite := by
  have h := burn_rate_zero_runway_infinite income_only_db 1 5 ⟨1, 0, 30, 2000⟩
    rfl (by decide) (by intro t ht; fin_cases ht; decide)
  refine ⟨h.1, ?_⟩
  have heq : calculate_burn_rate income_only_db 1 5 = some (2000, 0, 0) := by
    simp [calculate_burn_rate, find_cycle, income_only_db, days_passed,
      sum_amounts, sumValue]
  exact ((h.2 2000 0 0 heq).1 rfl).2

/-- Witness for C2 at the empty database with income 5 and rollover 3. -/
theorem start_new_cycle_seeds_witness :
    (find_cycle (start_new_cycle emptyDB 5 3 0 0).2
        (start_new_cycle emptyDB 5 3 0 0).1).map Cycle.initial_income =
      some (5 + 3) ∧
    (start_new_cycle emptyDB 5 3 0 0).2.transactions.filter
        (fun t => t.cycle_id = (start_new_cycle emptyDB 5 3 0 0).1) =
      [⟨(start_new_cycle emptyDB 5 3 0 0).1, "income", "Salary",
        SqlValue.real (5 + 3), "Initial Cycle Funds", 0⟩] :=
  start_new_cycle_seeds_initial_income emptyDB 5 3 0 0 (by decide) (by decide)
    (fun t ht => absurd ht (List.not_mem_nil t))

/-- Witness for C4 at `overspent_db` (income 500, expense 700, queried on
the start day): balance −200, and the runway −2/7 is negative and displayed
as-is. -/
theorem overspent_negative_runway_witness :
    (-200 : Rat) < 0 ∧ (-2 / 7 : Rat) = -200 / 700 ∧ (-2 / 7 : Rat) < 0 ∧
      display_runway 700 (-2 / 7) = RunwayDisplay.finite (-2 / 7) :=
  overspent_negative_runway overspent_db 1 0 (-200) 700 (-2 / 7)
    (by simp [calculate_burn_rate, find_cycle, overspent_db, days_passed,
        sum_amounts, sumValue]; norm_num)
    (by simp [sum_amounts, sumValue, overspent_db]; norm_num) (by norm_num)

/-- Witness for C8 at a cycle holding only its seed income row. -/
theorem category_breakdown_empty_witness :
    category_breakdown income_only_db 1 = [] ∧
    generate_visual_report income_only_db 1 = ReportOutcome.noData :=
  category_breakdown_empty_ok income_only_db 1 (by simp [income_only_db])

end BudgetTracker
